import Mathlib

/-!
Shallow embedding of `src/create_table.py`, a one-shot JSON → PostgreSQL ETL
utility, together with proofs of the specified properties.

The embedding models JSON runtime values as parsed by `json.load` (booleans,
integers and floats are distinct runtime types, objects keep key insertion
order), and models each database-facing side effect of the two operations
`create_table_from_json` and `insert_data_from_json` as an event in an ordered
trace: executed statements (with their bound parameters), commits, cursor and
connection releases, and printed status messages.  A run returns the trace of
events that actually happened together with `none` on success or `some msg`
when a Python exception (IndexError / KeyError) aborts the run at that point.
-/

/-- JSON values as produced by Python's `json.load`: booleans, integers and
floats are distinct runtime types; objects keep their key insertion order. -/
inductive JValue where
  | null
  | bool (b : Bool)
  | int (n : Int)
  | float (lit : String)
  | str (s : String)
  | arr (elems : List JValue)
  | obj (fields : List (String × JValue))

/-- A record, i.e. one JSON object of the input array: an ordered association
list from field name to value (Python dicts preserve insertion order, and
`dict.keys()` iterates in that order). -/
abbrev JRecord := List (String × JValue)

/-- Source line 7: `GEOMETRY_HEADERS = ("geom", "geometry", "wkt")`. -/
def GEOMETRY_HEADERS : List String := ["geom", "geometry", "wkt"]

/-- Python's `str.lower()`: lower-case every character.  This is extensionally
the same function as `String.toLower` (see `pyLower_eq_toLower` below); it is
written directly on the character list so that it evaluates by kernel
reduction. -/
def pyLower (s : String) : String :=
  ⟨s.data.map Char.toLower⟩

/-- The test `header.lower() in GEOMETRY_HEADERS` used at source lines 25, 73,
75 and 106. -/
def isGeomHeader (header : String) : Bool :=
  GEOMETRY_HEADERS.contains (pyLower header)

/-- Source lines 24-36, `decide_sql_type(header, value)`: the geometry-alias
check on the field name comes first, then the value's runtime type is
dispatched in the order bool, int, float, dict, with TEXT as the fallback.
(The `isinstance(value, bool)` test precedes `isinstance(value, int)` in the
source; the constructors here are disjoint, so a boolean value is `.bool`.) -/
def decide_sql_type (header : String) (value : JValue) : String :=
  if isGeomHeader header then "GEOMETRY(GEOMETRY, 3857)"
  else
    match value with
    | .bool _ => "BOOLEAN"
    | .int _ => "INTEGER"
    | .float _ => "DOUBLE PRECISION"
    | .obj _ => "JSONB"
    | _ => "TEXT"

/-- One observable database-facing side effect of a run. -/
inductive DBEvent where
  | execute (sql : String) (params : List JValue)
  | commit
  | closeCursor
  | closeConnection
  | print (msg : String)

/-- Python dict subscription `entry[header]`: the value when the key is
present, a `KeyError` otherwise. -/
def recordGet (entry : JRecord) (header : String) : Except String JValue :=
  match List.lookup header entry with
  | some v => Except.ok v
  | none => Except.error ("KeyError: " ++ header)

/-- Source lines 52-55, the loop `for header in headers`: look the header up in
the first record, decide its SQL type, and append `f"{header} {sql_type}"`;
the first failing lookup aborts the loop with a `KeyError`. -/
def build_columns (first_json_entry : JRecord) : List String → Except String (List String)
  | [] => Except.ok []
  | header :: rest =>
    match recordGet first_json_entry header with
    | Except.error e => Except.error e
    | Except.ok value =>
      (build_columns first_json_entry rest).map
        (fun cols => (header ++ " " ++ decide_sql_type header value) :: cols)

/-- Source lines 50-55: the full `columns_with_types` list, the surrogate-key
column `id BIGSERIAL PRIMARY KEY` first, then one column per header of the
first record. -/
def columns_with_types (first_json_entry : JRecord) : Except String (List String) :=
  (build_columns first_json_entry (first_json_entry.map Prod.fst)).map
    (fun cols => "id BIGSERIAL PRIMARY KEY" :: cols)

/-- Source lines 58-62: the `CREATE TABLE IF NOT EXISTS` statement text. -/
def create_sql_text (table_name : String) (columns : List String) : String :=
  "\n    CREATE TABLE IF NOT EXISTS " ++ table_name ++ " (\n        "
    ++ String.intercalate (", ") columns ++ "\n    );\n    "

/-- Source lines 76-79: the `CREATE INDEX ... USING GIST` statement text. -/
def spatial_index_sql (table_name spatial_column : String) : String :=
  "\n            CREATE INDEX IF NOT EXISTS idx_" ++ table_name ++ "_" ++ spatial_column
    ++ " \n            ON " ++ table_name ++ " USING GIST(" ++ spatial_column ++ ");\n        "

/-- Source lines 39-89, `create_table_from_json(json_file, table_name)`, with
the file already parsed into `json_data`.  `json_data[0]` on an empty list is
Python's `IndexError`.  The guard `any(header.lower() in GEOMETRY_HEADERS for
header in first_json_entry.keys())` together with `next(...)` over the same
generator is rendered as a single `find?` (for a `Bool` predicate `p`,
`l.any p = (l.find? p).isSome`, and `next` yields exactly the found element).
On the spatial branch the code executes the index statement, commits, closes
the cursor and the connection, and prints the spatial status line; on the
non-spatial branch the code only prints the non-spatial status line — in the
source, commit and the two closes appear inside the spatial branch only. -/
def create_table_from_json (json_data : List JRecord) (table_name : String) :
    List DBEvent × Option String :=
  match json_data with
  | [] => ([], some ("IndexError: list index out of range"))
  | first_json_entry :: _ =>
    match columns_with_types first_json_entry with
    | Except.error e => ([], some e)
    | Except.ok cols =>
      let create_sql := create_sql_text table_name cols
      let dropStmt := DBEvent.execute ("DROP TABLE IF EXISTS " ++ table_name ++ ";") []
      let createStmt := DBEvent.execute create_sql []
      match (first_json_entry.map Prod.fst).find? isGeomHeader with
      | some spatial_column =>
        ([dropStmt, createStmt,
          DBEvent.execute (spatial_index_sql table_name spatial_column) [],
          DBEvent.commit, DBEvent.closeCursor, DBEvent.closeConnection,
          DBEvent.print ("Table " ++ table_name ++ " created successfully with spatial support ✅")],
         none)
      | none =>
        ([dropStmt, createStmt,
          DBEvent.print ("Table " ++ table_name ++ " created successfully without spatial support ✅")],
         none)

/-- Source lines 100-110, the placeholder list: one placeholder per key of the
first record, the geometry conversion-and-transform wrapper for every
geometry-alias key, a plain `%s` marker otherwise. -/
def insert_placeholders (first_json_entry : JRecord) : List String :=
  (first_json_entry.map Prod.fst).map
    (fun header =>
      if isGeomHeader header then "ST_Transform(ST_GeomFromText(%s, 3857), 3857)" else "%s")

/-- Source lines 102-110, the `headers` list accumulated by the same loop: the
first record's keys in key-iteration order. -/
def insert_headers (first_json_entry : JRecord) : List String :=
  first_json_entry.map Prod.fst

/-- Source lines 113-116: the parameterized `INSERT` statement text; it
depends only on the table name and the first record's keys. -/
def insert_sql_text (table_name : String) (first_json_entry : JRecord) : String :=
  "\n    INSERT INTO " ++ table_name ++ " ("
    ++ String.intercalate (", ") (insert_headers first_json_entry)
    ++ ")\n    VALUES (" ++ String.intercalate (", ") (insert_placeholders first_json_entry)
    ++ ")\n    "

/-- Source line 124: `tuple(entry[header] for header in headers)`; a missing
key raises `KeyError` at that point. -/
def record_values (entry : JRecord) : List String → Except String (List JValue)
  | [] => Except.ok []
  | header :: rest =>
    match recordGet entry header with
    | Except.error e => Except.error e
    | Except.ok v => (record_values entry rest).map (fun vs => v :: vs)

/-- Source lines 123-125, the loop `for entry in json_data`: build each entry's
parameter tuple and execute the parameterized insert; a `KeyError` while
building a tuple aborts the loop there (later entries are not executed). -/
def run_inserts (insert_sql : String) (headers : List String) :
    List JRecord → List DBEvent × Option String
  | [] => ([], none)
  | entry :: rest =>
    match record_values entry headers with
    | Except.error e => ([], some e)
    | Except.ok data =>
      let res := run_inserts insert_sql headers rest
      (DBEvent.execute insert_sql data :: res.1, res.2)

/-- Source lines 92-133, `insert_data_from_json(json_file, table_name)`, with
the file already parsed into `json_data`.  After all inserts succeed the code
commits once, closes the cursor and the connection, and prints the status
line. -/
def insert_data_from_json (json_data : List JRecord) (table_name : String) :
    List DBEvent × Option String :=
  match json_data with
  | [] => ([], some ("IndexError: list index out of range"))
  | first_json_entry :: _ =>
    let headers := insert_headers first_json_entry
    let insert_sql := insert_sql_text table_name first_json_entry
    let res := run_inserts insert_sql headers json_data
    match res.2 with
    | some e => (res.1, some e)
    | none =>
      (res.1 ++ [DBEvent.commit, DBEvent.closeCursor, DBEvent.closeConnection,
        DBEvent.print ("Table " ++ table_name ++ " was filled with data successfully ✅")],
       none)

/-- Discriminator for executed-statement events. -/
def isExecEvent : DBEvent → Bool
  | .execute _ _ => true
  | _ => false

/-- Discriminator for commit events. -/
def isCommitEvent : DBEvent → Bool
  | .commit => true
  | _ => false

/-- Boolean success discriminator for `Except`. -/
def exceptOk {ε α : Type} : Except ε α → Bool
  | .ok _ => true
  | .error _ => false
/-! ## Helper lemmas -/

/-- Unfolding equation for `Char.toLower`. -/
theorem char_toLower_def (d : Char) :
    d.toLower = if d.toNat ≥ 65 ∧ d.toNat ≤ 90 then Char.ofNat (d.toNat + 32) else d := rfl

/-- Lower-casing a character is idempotent. -/
theorem char_toLower_toLower (c : Char) : c.toLower.toLower = c.toLower := by
  by_cases h : c.toNat ≥ 65 ∧ c.toNat ≤ 90
  · rw [char_toLower_def c, if_pos h]
    have hv : Nat.isValidChar (c.toNat + 32) := Or.inl (by omega)
    have ht : (Char.ofNat (c.toNat + 32)).toNat = c.toNat + 32 := by
      rw [Char.ofNat, dif_pos hv]
      rfl
    rw [char_toLower_def, ht, if_neg (by omega)]
  · rw [char_toLower_def c, if_neg h, char_toLower_def c, if_neg h]

/-- The embedding of Python's `str.lower()` agrees with `String.toLower`. -/
theorem pyLower_eq_toLower (s : String) : pyLower s = s.toLower := by
  rw [String.toLower, String.map_eq]
  rfl

/-- Lower-casing a string is idempotent. -/
theorem pyLower_pyLower (s : String) : pyLower (pyLower s) = pyLower s := by
  show (⟨(s.data.map Char.toLower).map Char.toLower⟩ : String) = ⟨s.data.map Char.toLower⟩
  rw [List.map_map]
  congr 1
  exact List.map_congr_left fun c _ => by
    simp only [Function.comp_apply, char_toLower_toLower]

/-- A key that occurs in a record with pairwise-distinct keys looks up to its
own value. -/
theorem lookup_eq_some_of_nodup (l : JRecord) (k : String) (v : JValue)
    (hmem : (k, v) ∈ l) (hnd : (l.map Prod.fst).Nodup) :
    List.lookup k l = some v := by
  induction l with
  | nil => cases hmem
  | cons a l ih =>
    obtain ⟨ak, av⟩ := a
    rw [List.map_cons, List.nodup_cons] at hnd
    rcases List.mem_cons.mp hmem with heq | hmem2
    · injection heq with h1 h2
      subst h1; subst h2
      simp
    · have hne : (k == ak) = false := by
        have hkne : k ≠ ak := by
          intro he
          exact hnd.1 (he ▸ List.mem_map.mpr ⟨(k, v), hmem2, rfl⟩)
        simp [hkne]
      simp [List.lookup_cons, hne, ih hmem2 hnd.2]

/-- A key that occurs among a record's keys looks up successfully. -/
theorem lookup_isSome_of_mem_keys (l : JRecord) (k : String)
    (hk : k ∈ l.map Prod.fst) : (List.lookup k l).isSome := by
  rw [List.lookup_isSome_iff]
  obtain ⟨p, hp, he⟩ := List.mem_map.mp hk
  exact ⟨p, hp, by simp [beq_iff_eq, he]⟩

/-- Building the typed column list over any selection of the record's own
keys succeeds. -/
theorem build_columns_ok (first : JRecord) (keys : List String)
    (hall : ∀ s ∈ keys, s ∈ first.map Prod.fst) :
    ∃ cs, build_columns first keys = Except.ok cs := by
  induction keys with
  | nil => exact ⟨[], rfl⟩
  | cons kk rest ih =>
    have h1 : (List.lookup kk first).isSome :=
      lookup_isSome_of_mem_keys first kk (hall kk (by simp))
    obtain ⟨v, hv⟩ := Option.isSome_iff_exists.mp h1
    obtain ⟨cs, hcs⟩ := ih (fun s hs => hall s (by simp [hs]))
    exact ⟨(kk ++ " " ++ decide_sql_type kk v) :: cs,
      by simp [build_columns, recordGet, hv, hcs, Except.map]⟩

/-- Composing the typed column list from the first record always succeeds. -/
theorem columns_with_types_ok (first : JRecord) :
    ∃ cols, columns_with_types first = Except.ok cols := by
  obtain ⟨cs, h⟩ := build_columns_ok first (first.map Prod.fst) (fun s hs => hs)
  exact ⟨"id BIGSERIAL PRIMARY KEY" :: cs, by simp [columns_with_types, h, Except.map]⟩

/-- On a record with pairwise-distinct keys, building the typed column list
produces exactly one `name type` entry per key-value pair, in order. -/
theorem build_columns_eq_of_nodup (first : JRecord) (sub : JRecord)
    (hall : ∀ p ∈ sub, List.lookup p.1 first = some p.2) :
    build_columns first (sub.map Prod.fst)
      = Except.ok (sub.map (fun p => p.1 ++ " " ++ decide_sql_type p.1 p.2)) := by
  induction sub with
  | nil => rfl
  | cons p sub ih =>
    have hp := hall p (by simp)
    have hrest := ih (fun q hq => hall q (by simp [hq]))
    simp [build_columns, recordGet, hp, hrest, Except.map]

/-- The trace of `create_table_from_json` on the spatial branch. -/
theorem create_table_trace_spatial (first : JRecord) (rest : List JRecord)
    (tn : String) (cols : List String) (k : String)
    (hcols : columns_with_types first = Except.ok cols)
    (hfind : (first.map Prod.fst).find? isGeomHeader = some k) :
    create_table_from_json (first :: rest) tn
      = ([DBEvent.execute ("DROP TABLE IF EXISTS " ++ tn ++ ";") [],
          DBEvent.execute (create_sql_text tn cols) [],
          DBEvent.execute (spatial_index_sql tn k) [],
          DBEvent.commit, DBEvent.closeCursor, DBEvent.closeConnection,
          DBEvent.print ("Table " ++ tn ++ " created successfully with spatial support ✅")],
         none) := by
  simp only [create_table_from_json, hcols, hfind]

/-- The trace of `create_table_from_json` on the non-spatial branch: no index
statement, and also no commit and no cursor/connection release. -/
theorem create_table_trace_nonspatial (first : JRecord) (rest : List JRecord)
    (tn : String) (cols : List String)
    (hcols : columns_with_types first = Except.ok cols)
    (hfind : (first.map Prod.fst).find? isGeomHeader = none) :
    create_table_from_json (first :: rest) tn
      = ([DBEvent.execute ("DROP TABLE IF EXISTS " ++ tn ++ ";") [],
          DBEvent.execute (create_sql_text tn cols) [],
          DBEvent.print ("Table " ++ tn ++ " created successfully without spatial support ✅")],
         none) := by
  simp only [create_table_from_json, hcols, hfind]

/-! ## Claim theorems -/

/-- C4: on the empty dataset, `create_table_from_json` fails with the
Empty-Dataset Error (the `json_data[0]` sample access raises `IndexError`)
and its event trace is empty: no drop, create, or index statement runs. -/
theorem empty_dataset_no_ddl (table_name : String) :
    create_table_from_json [] table_name
      = ([], some ("IndexError: list index out of range")) := rfl

/-- C2 evaluation: on a dataset whose first record has no geometry-alias
field, `create_table_from_json` executes the drop and create statements and
prints the non-spatial status line, but its trace contains no commit and no
cursor/connection release — in the source, commit and the closes sit inside
the spatial branch only. -/
theorem create_table_nonspatial_skips_commit :
    create_table_from_json [[("name", JValue.str ("X"))]] ("t")
      = ([DBEvent.execute ("DROP TABLE IF EXISTS " ++ "t" ++ ";") [],
          DBEvent.execute (create_sql_text ("t") ["id BIGSERIAL PRIMARY KEY", "name TEXT"]) [],
          DBEvent.print ("Table " ++ "t" ++ " created successfully without spatial support ✅")],
         none)
    ∧ (create_table_from_json [[("name", JValue.str ("X"))]] ("t")).1.countP isCommitEvent = 0 := by
  have h := create_table_trace_nonspatial [("name", JValue.str ("X"))] [] ("t")
    ["id BIGSERIAL PRIMARY KEY", "name TEXT"] rfl rfl
  exact ⟨h, by rw [h]; rfl⟩

/-- C8 counterexample: a second record missing one of the first record's keys
makes the insert loop abort with a `KeyError` after a single executed insert,
so a 2-record geometry-free dataset does not execute 2 insert statements. -/
theorem insert_roundtrip_counterexample :
    (insert_data_from_json [[("a", JValue.int 1)], [("b", JValue.int 2)]] ("t")).1.countP isExecEvent
        = 1
    ∧ (insert_data_from_json [[("a", JValue.int 1)], [("b", JValue.int 2)]] ("t")).2
        = some ("KeyError: a") :=
  ⟨rfl, rfl⟩

/-- C7: on the dataset `[{"name": "X", "wkt": "POINT(1 2)"}]`,
`create_table_from_json` executes the drop, a create-table statement with
exactly the columns `id BIGSERIAL PRIMARY KEY, name TEXT,
wkt GEOMETRY(GEOMETRY, 3857)` in that order, and a GIST spatial index
creation on `wkt`, then commits, releases cursor and connection, and prints
the spatial-support status line. -/
theorem spatial_path_scenario (table_name : String) :
    create_table_from_json
        [[("name", JValue.str ("X")), ("wkt", JValue.str ("POINT(1 2)"))]] table_name
      = ([DBEvent.execute ("DROP TABLE IF EXISTS " ++ table_name ++ ";") [],
          DBEvent.execute (create_sql_text table_name
            ["id BIGSERIAL PRIMARY KEY", "name TEXT", "wkt GEOMETRY(GEOMETRY, 3857)"]) [],
          DBEvent.execute (spatial_index_sql table_name ("wkt")) [],
          DBEvent.commit, DBEvent.closeCursor, DBEvent.closeConnection,
          DBEvent.print ("Table " ++ table_name ++ " created successfully with spatial support ✅")],
         none) :=
  create_table_trace_spatial _ _ _ _ _ rfl rfl

/-- C3: `decide_sql_type` follows the documented precedence with first match
winning — geometry whenever the lower-cased field name is a geometry alias,
regardless of the value; otherwise BOOLEAN for booleans (a boolean value is
never classified INTEGER), INTEGER for integers, DOUBLE PRECISION for floats,
JSONB for nested objects, and TEXT for every other shape (strings, null,
arrays). -/
theorem decide_sql_type_precedence (header : String) (b : Bool) (n : Int) (x : String)
    (s : String) (elems : List JValue) (fields : List (String × JValue)) :
    decide_sql_type header (JValue.bool b)
        = (if isGeomHeader header then "GEOMETRY(GEOMETRY, 3857)" else "BOOLEAN")
    ∧ decide_sql_type header (JValue.int n)
        = (if isGeomHeader header then "GEOMETRY(GEOMETRY, 3857)" else "INTEGER")
    ∧ decide_sql_type header (JValue.float x)
        = (if isGeomHeader header then "GEOMETRY(GEOMETRY, 3857)" else "DOUBLE PRECISION")
    ∧ decide_sql_type header (JValue.obj fields)
        = (if isGeomHeader header then "GEOMETRY(GEOMETRY, 3857)" else "JSONB")
    ∧ decide_sql_type header (JValue.str s)
        = (if isGeomHeader header then "GEOMETRY(GEOMETRY, 3857)" else "TEXT")
    ∧ decide_sql_type header JValue.null
        = (if isGeomHeader header then "GEOMETRY(GEOMETRY, 3857)" else "TEXT")
    ∧ decide_sql_type header (JValue.arr elems)
        = (if isGeomHeader header then "GEOMETRY(GEOMETRY, 3857)" else "TEXT")
    ∧ decide_sql_type header (JValue.bool b) ≠ "INTEGER" := by
  cases hg : isGeomHeader header <;> simp [decide_sql_type, hg]

/-- C9: geometry-alias matching is case-insensitive — `decide_sql_type` is
invariant under lower-casing the field name (lower-casing is idempotent), and
the field names `Geom`, `GEOMETRY` and `wkt` all classify as the geometry
type whatever the value. -/
theorem geom_alias_case_insensitive (header : String) (value : JValue) :
    decide_sql_type header value = decide_sql_type (pyLower header) value
    ∧ decide_sql_type ("Geom") value = "GEOMETRY(GEOMETRY, 3857)"
    ∧ decide_sql_type ("GEOMETRY") value = "GEOMETRY(GEOMETRY, 3857)"
    ∧ decide_sql_type ("wkt") value = "GEOMETRY(GEOMETRY, 3857)" := by
  have hlow : isGeomHeader (pyLower header) = isGeomHeader header := by
    simp [isGeomHeader, pyLower_pyLower]
  have h1 : isGeomHeader ("Geom") = true := by decide
  have h2 : isGeomHeader ("GEOMETRY") = true := by decide
  have h3 : isGeomHeader ("wkt") = true := by decide
  refine ⟨?_, ?_, ?_, ?_⟩
  · simp only [decide_sql_type, hlow]
  · simp [decide_sql_type, h1]
  · simp [decide_sql_type, h2]
  · simp [decide_sql_type, h3]

/-- C1: on a first record with pairwise-distinct keys `k1..kn` (a Python dict
guarantees distinctness), the column list composed for table creation is the
surrogate-key column `id BIGSERIAL PRIMARY KEY` followed by one `ki type`
column per key, in key order, and the insert statement's column list is
exactly `k1..kn` in the same order with no surrogate key. -/
theorem column_order_invariant (first_json_entry : JRecord)
    (hnd : (first_json_entry.map Prod.fst).Nodup) :
    columns_with_types first_json_entry
      = Except.ok ("id BIGSERIAL PRIMARY KEY"
          :: first_json_entry.map (fun p => p.1 ++ " " ++ decide_sql_type p.1 p.2))
    ∧ insert_headers first_json_entry = first_json_entry.map Prod.fst := by
  refine ⟨?_, rfl⟩
  have hlk : ∀ p ∈ first_json_entry, List.lookup p.1 first_json_entry = some p.2 := by
    intro p hp
    exact lookup_eq_some_of_nodup first_json_entry p.1 p.2 hp hnd
  simp [columns_with_types, build_columns_eq_of_nodup first_json_entry first_json_entry hlk,
    Except.map]

/-- Witness for C1 at a concrete two-field record. -/
theorem column_order_invariant_witness :
    columns_with_types [("name", JValue.str ("X")), ("wkt", JValue.str ("POINT(1 2)"))]
      = Except.ok (["id BIGSERIAL PRIMARY KEY", "name TEXT", "wkt GEOMETRY(GEOMETRY, 3857)"])
    ∧ insert_headers [("name", JValue.str ("X")), ("wkt", JValue.str ("POINT(1 2)"))]
      = ["name", "wkt"] := by
  simpa using column_order_invariant
    [("name", JValue.str ("X")), ("wkt", JValue.str ("POINT(1 2)"))] (by decide)

/-- Every event the insert loop emits is an execute of the given statement
text: the statement string handed to `cursor.execute` never varies with the
record values, which travel separately as bound parameters. -/
theorem run_inserts_sql_only (l : List JRecord) (sql : String) (hs : List String) :
    ∀ e ∈ (run_inserts sql hs l).1, ∃ ps, e = DBEvent.execute sql ps := by
  induction l with
  | nil => intro e he; cases he
  | cons entry rest ih =>
    intro e he
    cases hrv : record_values entry hs with
    | error err => simp [run_inserts, hrv] at he
    | ok data =>
      simp only [run_inserts, hrv] at he
      rcases List.mem_cons.mp he with rfl | he2
      · exact ⟨data, rfl⟩
      · exact ih e he2

/-- Structure of an `insert_data_from_json` run on a nonempty dataset: the
trace is the insert-loop trace (all of whose events execute the one composed
statement), followed — exactly when no record failed — by one commit, the
cursor and connection releases, and the status line. -/
theorem insert_data_split (first : JRecord) (rest : List JRecord) (tn : String) :
    ∃ evts : List DBEvent,
      run_inserts (insert_sql_text tn first) (insert_headers first) (first :: rest)
          = (evts, (insert_data_from_json (first :: rest) tn).2)
      ∧ (∀ e ∈ evts, ∃ ps, e = DBEvent.execute (insert_sql_text tn first) ps)
      ∧ (insert_data_from_json (first :: rest) tn).1
          = evts ++ (if (insert_data_from_json (first :: rest) tn).2 = none
                     then [DBEvent.commit, DBEvent.closeCursor, DBEvent.closeConnection,
                           DBEvent.print ("Table " ++ tn ++ " was filled with data successfully ✅")]
                     else []) := by
  rcases hr : run_inserts (insert_sql_text tn first) (insert_headers first) (first :: rest)
    with ⟨evts, err⟩
  refine ⟨evts, ?_, ?_, ?_⟩
  · cases err <;> simp [insert_data_from_json, hr]
  · intro e he
    exact run_inserts_sql_only _ _ _ e (by rw [hr]; exact he)
  · cases err <;> simp [insert_data_from_json, hr]

/-- C5: injection safety / noninterference — the insert statement text is a
function of the table name and the first record's key names only (two first
records with the same keys yield the identical statement), and every executed
statement in a run carries exactly that text, with record values only ever
appearing in the bound-parameter list. -/
theorem insert_stmt_injection_safety (f1 f2 : JRecord) (r1 : List JRecord) (tn : String)
    (hkeys : f1.map Prod.fst = f2.map Prod.fst) :
    insert_sql_text tn f1 = insert_sql_text tn f2
    ∧ ∀ e ∈ (insert_data_from_json (f1 :: r1) tn).1, ∀ s ps,
        e = DBEvent.execute s ps → s = insert_sql_text tn f1 := by
  constructor
  · simp only [insert_sql_text, insert_headers, insert_placeholders, hkeys]
  · obtain ⟨evts, hrun, hexec, htrace⟩ := insert_data_split f1 r1 tn
    intro e he s ps hse
    rw [htrace] at he
    rcases List.mem_append.mp he with h1 | h2
    · obtain ⟨qs, hq⟩ := hexec e h1
      rw [hse] at hq
      obtain ⟨hs1, -⟩ : s = insert_sql_text tn f1 ∧ ps = qs := by simpa using hq
      exact hs1
    · rw [hse] at h2
      by_cases hc : (insert_data_from_json (f1 :: r1) tn).2 = none <;> simp [hc] at h2

/-- Witness for C5: a value laced with SQL metacharacters leaves the composed
statement text unchanged. -/
theorem insert_stmt_injection_safety_witness :
    insert_sql_text ("t") [("name", JValue.str ("X; DROP TABLE x;--"))]
      = insert_sql_text ("t") [("name", JValue.str ("X"))] :=
  (insert_stmt_injection_safety [("name", JValue.str ("X; DROP TABLE x;--"))]
    [("name", JValue.str ("X"))] [] ("t") rfl).1

/-- C6: when the first record has two or more geometry-alias fields, the
create operation still emits exactly one spatial-index statement, on the
first matching key in key-iteration order, while the insert placeholder list
applies the WKT-to-geometry-and-transform wrapper at every matching
position. -/
theorem spatial_index_first_alias_only (first : JRecord) (rest : List JRecord) (tn k : String)
    (hfind : (first.map Prod.fst).find? isGeomHeader = some k)
    (_hmulti : 2 ≤ (first.map Prod.fst).countP isGeomHeader) :
    (∃ cols, columns_with_types first = Except.ok cols ∧
      create_table_from_json (first :: rest) tn
        = ([DBEvent.execute ("DROP TABLE IF EXISTS " ++ tn ++ ";") [],
            DBEvent.execute (create_sql_text tn cols) [],
            DBEvent.execute (spatial_index_sql tn k) [],
            DBEvent.commit, DBEvent.closeCursor, DBEvent.closeConnection,
            DBEvent.print ("Table " ++ tn ++ " created successfully with spatial support ✅")],
           none))
    ∧ ∀ i : Nat, ∀ h : String, (first.map Prod.fst)[i]? = some h → isGeomHeader h = true →
        (insert_placeholders first)[i]? = some ("ST_Transform(ST_GeomFromText(%s, 3857), 3857)") := by
  constructor
  · obtain ⟨cols, hcols⟩ := columns_with_types_ok first
    exact ⟨cols, hcols, create_table_trace_spatial first rest tn cols k hcols hfind⟩
  · intro i h hget hg
    have hmap : (insert_placeholders first)[i]?
        = ((first.map Prod.fst)[i]?).map
            (fun header =>
              if isGeomHeader header then "ST_Transform(ST_GeomFromText(%s, 3857), 3857)"
              else "%s") := by
      simp only [insert_placeholders, List.getElem?_map]
    rw [hmap, hget]
    simp [hg]

/-- Witness for C6 at a record with two geometry-alias fields (`geom` and
`wkt`): the index lands on `geom`, the first one. -/
theorem spatial_index_first_alias_only_witness :
    (∃ cols, columns_with_types [("geom", JValue.str ("a")), ("wkt", JValue.str ("b"))]
        = Except.ok cols ∧
      create_table_from_json [[("geom", JValue.str ("a")), ("wkt", JValue.str ("b"))]] ("t")
        = ([DBEvent.execute ("DROP TABLE IF EXISTS " ++ "t" ++ ";") [],
            DBEvent.execute (create_sql_text ("t") cols) [],
            DBEvent.execute (spatial_index_sql ("t") ("geom")) [],
            DBEvent.commit, DBEvent.closeCursor, DBEvent.closeConnection,
            DBEvent.print ("Table " ++ "t" ++ " created successfully with spatial support ✅")],
           none))
    ∧ ∀ i : Nat, ∀ h : String,
        (([("geom", JValue.str ("a")), ("wkt", JValue.str ("b"))] : JRecord).map Prod.fst)[i]?
            = some h →
        isGeomHeader h = true →
        (insert_placeholders [("geom", JValue.str ("a")), ("wkt", JValue.str ("b"))])[i]?
          = some ("ST_Transform(ST_GeomFromText(%s, 3857), 3857)") :=
  spatial_index_first_alias_only [("geom", JValue.str ("a")), ("wkt", JValue.str ("b"))]
    [] ("t") ("geom") rfl (by decide)

/-- When every record's parameter tuple builds successfully, the insert loop
executes one parameterized statement per record, in order, carrying exactly
that record's values for the given headers. -/
theorem run_inserts_ok_spec (l : List JRecord) (sql : String) (hs : List String)
    (hok : ∀ entry ∈ l, exceptOk (record_values entry hs) = true) :
    ∃ vss : List (List JValue),
      List.Forall₂ (fun entry vs => record_values entry hs = Except.ok vs) l vss
      ∧ run_inserts sql hs l = (vss.map (fun vs => DBEvent.execute sql vs), none)
      ∧ vss.length = l.length := by
  induction l with
  | nil => exact ⟨[], List.Forall₂.nil, rfl, rfl⟩
  | cons entry rest ih =>
    have h1 : exceptOk (record_values entry hs) = true := hok entry (by simp)
    obtain ⟨vs, hvs⟩ : ∃ vs, record_values entry hs = Except.ok vs := by
      cases hrv : record_values entry hs with
      | ok vs => exact ⟨vs, rfl⟩
      | error e => rw [hrv] at h1; simp [exceptOk] at h1
    obtain ⟨vss, hm, hrun, hlen⟩ := ih (fun q hq => hok q (by simp [hq]))
    refine ⟨vs :: vss, List.Forall₂.cons hvs hm, ?_, by simp [hlen]⟩
    simp [run_inserts, hvs, hrun]

/-- C8 (amended): for a nonempty dataset with no geometry-alias field among
the first record's keys, provided every record contains all of the first
record's keys (so each parameter tuple builds), `insert_data_from_json`
executes exactly N parameterized inserts, the i-th carrying the i-th record's
values for precisely the first record's keys in first-record key order, all
placeholders are plain `%s` markers, and the run then commits, releases, and
reports success. -/
theorem insert_roundtrip_amended (first : JRecord) (rest : List JRecord) (tn : String)
    (hok : ∀ entry ∈ first :: rest, exceptOk (record_values entry (insert_headers first)) = true)
    (hgeom : ∀ h ∈ insert_headers first, isGeomHeader h = false) :
    ∃ vss : List (List JValue),
      List.Forall₂ (fun entry vs => record_values entry (insert_headers first) = Except.ok vs)
          (first :: rest) vss
      ∧ vss.length = (first :: rest).length
      ∧ (insert_data_from_json (first :: rest) tn).1
          = vss.map (fun vs => DBEvent.execute (insert_sql_text tn first) vs)
            ++ [DBEvent.commit, DBEvent.closeCursor, DBEvent.closeConnection,
                DBEvent.print ("Table " ++ tn ++ " was filled with data successfully ✅")]
      ∧ (insert_data_from_json (first :: rest) tn).2 = none
      ∧ insert_placeholders first = (insert_headers first).map (fun _ => "%s") := by
  obtain ⟨vss, hm, hrun, hlen⟩ :=
    run_inserts_ok_spec (first :: rest) (insert_sql_text tn first) (insert_headers first) hok
  refine ⟨vss, hm, hlen, ?_, ?_, ?_⟩
  · simp [insert_data_from_json, hrun]
  · simp [insert_data_from_json, hrun]
  · simp only [insert_placeholders, insert_headers]
    exact List.map_congr_left fun h hh => by simp [hgeom h hh]

/-- Witness for C8 (amended) on a homogeneous two-record dataset. -/
theorem insert_roundtrip_amended_witness :
    ∃ vss : List (List JValue),
      List.Forall₂
          (fun entry vs =>
            record_values entry (insert_headers [("name", JValue.str ("A"))]) = Except.ok vs)
          ([[("name", JValue.str ("A"))], [("name", JValue.str ("B"))]] : List JRecord) vss
      ∧ vss.length
          = ([[("name", JValue.str ("A"))], [("name", JValue.str ("B"))]] : List JRecord).length
      ∧ (insert_data_from_json [[("name", JValue.str ("A"))], [("name", JValue.str ("B"))]] ("t")).1
          = vss.map (fun vs =>
              DBEvent.execute (insert_sql_text ("t") [("name", JValue.str ("A"))]) vs)
            ++ [DBEvent.commit, DBEvent.closeCursor, DBEvent.closeConnection,
                DBEvent.print ("Table " ++ "t" ++ " was filled with data successfully ✅")]
      ∧ (insert_data_from_json [[("name", JValue.str ("A"))], [("name", JValue.str ("B"))]] ("t")).2
          = none
      ∧ insert_placeholders [("name", JValue.str ("A"))]
          = (insert_headers [("name", JValue.str ("A"))]).map (fun _ => "%s") :=
  insert_roundtrip_amended [("name", JValue.str ("A"))] [[("name", JValue.str ("B"))]] ("t")
    (by decide) (by decide)

/-- C10: `insert_data_from_json` commits exactly once on a fully successful
run and never otherwise, and the commit (followed only by the releases and
the status line) comes after all executed inserts: the trace is the executed
inserts followed by the commit/release/status tail exactly when the run
succeeded, and contains no commit when any record's insert failed. -/
theorem insert_commit_atomicity (json_data : List JRecord) (table_name : String) :
    (insert_data_from_json json_data table_name).1.countP isCommitEvent
        = (if (insert_data_from_json json_data table_name).2 = none then 1 else 0)
    ∧ (insert_data_from_json json_data table_name).1
        = (insert_data_from_json json_data table_name).1.filter isExecEvent
          ++ (if (insert_data_from_json json_data table_name).2 = none
              then [DBEvent.commit, DBEvent.closeCursor, DBEvent.closeConnection,
                    DBEvent.print ("Table " ++ table_name ++ " was filled with data successfully ✅")]
              else []) := by
  cases json_data with
  | nil => exact ⟨rfl, rfl⟩
  | cons first rest =>
    obtain ⟨evts, hrun, hexec, htrace⟩ := insert_data_split first rest table_name
    have hexecAll : ∀ e ∈ evts, isExecEvent e = true := by
      intro e he
      obtain ⟨ps, rfl⟩ := hexec e he
      rfl
    have hfilter : evts.filter isExecEvent = evts := List.filter_eq_self.mpr hexecAll
    have hcount : evts.countP isCommitEvent = 0 := by
      rw [List.countP_eq_zero]
      intro e he
      obtain ⟨ps, rfl⟩ := hexec e he
      simp [isCommitEvent]
    cases herr : (insert_data_from_json (first :: rest) table_name).2 with
    | none =>
      rw [htrace, herr]
      simp [List.countP_append, List.filter_append, hfilter, hcount, List.countP_cons,
        List.filter_cons, isCommitEvent, isExecEvent]
    | some e =>
      rw [htrace, herr]
      simp [List.countP_append, List.filter_append, hfilter, hcount]
